import Mathlib

/-
Shallow embedding of `src/streaming/stream_result_future.hh` (the streaming
plan completion aggregator, class `stream_result_future`).

The source file is a port in progress: the constructor, `init`,
`add_event_listener` and the class fields are live C++, while
`handleSessionPrepared`, `handleSessionComplete`, `handleProgress`,
`fireStreamEvent`, `maybeComplete`, `getCurrentState` and the body of
`init_receiving_side` exist in the file only as disabled reference bodies
(`#if 0` blocks).  Those bodies are embedded here exactly as written.
Collaborator types that are not under src/ (the one-shot result cell of the
future, `StreamState.hasFailedSession`, the coordinator's session-info table
and the receiving-side plan registry) are modelled from the spec, and each
such definition says so in its doc comment.
-/

namespace streaming

/-- Session lifecycle states, from the spec's data model:
not-started, preparing, prepared, streaming, completed, failed. -/
inductive session_state where
  | not_started
  | preparing
  | prepared
  | str_streaming
  | completed
  | failed
deriving DecidableEq

/-- Modelled from the spec: per-session status record (`SessionInfo`), the
class itself is not under src/.  Keyed by (peer, session index); carries
transfer totals, a cumulative transferred counter and the session state. -/
structure session_info where
  peer : Nat
  session_index : Nat
  total_files_to_receive : Nat
  total_size_to_receive : Nat
  total_files_to_send : Nat
  total_size_to_send : Nat
  bytes_transferred : Nat
  state : session_state
deriving DecidableEq

/-- Modelled from the spec: `ProgressInfo` { peer, session index, file,
bytes }; the class is not under src/. -/
structure progress_info where
  peer : Nat
  session_index : Nat
  file_name : String
  bytes : Nat
deriving DecidableEq

/-- Immutable aggregate snapshot (`StreamState`), built by `getCurrentState`
as StreamState(planId, description, coordinator.getAllSessionInfo()). -/
structure stream_state where
  plan_id : Nat
  description : String
  sessions : List session_info
deriving DecidableEq

/-- Modelled from the spec: `StreamState.hasFailedSession` (the class is not
under src/): true iff some contained SessionInfo is in state failed. -/
def stream_state.has_failed_session (s : stream_state) : Bool :=
  s.sessions.any (fun i => i.state == session_state.failed)

/-- Modelled from the spec: the one-shot resolution cell of the future
(`set` / `setException` semantics of the underlying future are not under
src/): PENDING transitions to SUCCEEDED(snapshot) or
FAILED(snapshot, message) exactly once. -/
inductive result_cell where
  | pending
  | succeeded (snapshot : stream_state)
  | failed (snapshot : stream_state) (message : String)
deriving DecidableEq

/-- Modelled from the spec: `set(state)` on the one-shot future; a no-op
once the cell is already resolved. -/
def result_cell.set (c : result_cell) (s : stream_state) : result_cell :=
  match c with
  | result_cell.pending => result_cell.succeeded s
  | c => c

/-- Modelled from the spec: `setException(StreamException(state, msg))` on
the one-shot future; a no-op once the cell is already resolved. -/
def result_cell.set_exception (c : result_cell) (s : stream_state) (m : String) : result_cell :=
  match c with
  | result_cell.pending => result_cell.failed s m
  | c => c

/-- The tagged event variant `StreamEvent`:
SessionPreparedEvent(planId, info), SessionCompleteEvent(session),
ProgressEvent(planId, progress). -/
inductive stream_event_kind where
  | session_prepared (plan_id : Nat) (info : session_info)
  | session_complete (info : session_info)
  | progress (plan_id : Nat) (p : progress_info)
deriving DecidableEq

/-- A `stream_event_handler` (listener).  The handler body is external code;
it is modelled by an identity and by which events its handling fails on
(throws an exception while handling). -/
structure stream_event_handler where
  id : Nat
  fails : stream_event_kind → Bool

/-- A `stream_session` as consumed by the aggregator: only its
`getSessionInfo()` view matters here (peer and session index are carried
inside the info record). -/
structure stream_session where
  info : session_info

/-- Modelled from the spec: the coordinator as observed through the narrow
interface the aggregator consumes (`is_receiving`, `has_active_sessions`,
`get_all_stream_sessions`, the session-info table of `getAllSessionInfo` /
`addSessionInfo`, `updateProgress`).  The coordinator class is an external
collaborator; only these observations are modelled. -/
structure stream_coordinator where
  receiving : Bool
  active_sessions : Bool
  sessions : List Nat
  session_infos : List session_info

/-- Modelled from the spec: `coordinator.addSessionInfo(info)` upserts the
record keyed by (peer, session index): full replace when present, append
when absent. -/
def stream_coordinator.add_session_info (c : stream_coordinator) (info : session_info) :
    stream_coordinator :=
  let same := fun (i : session_info) => i.peer == info.peer && i.session_index == info.session_index
  if c.session_infos.any same then
    { c with session_infos := c.session_infos.map (fun i => if same i then info else i) }
  else
    { c with session_infos := c.session_infos ++ [info] }

/-- Modelled from the spec: `coordinator.updateProgress(progress)` merges
the reported bytes additively into the matching record's cumulative
counter. -/
def stream_coordinator.update_progress (c : stream_coordinator) (p : progress_info) :
    stream_coordinator :=
  let merge := fun (i : session_info) =>
    if i.peer == p.peer && i.session_index == p.session_index then
      { i with bytes_transferred := i.bytes_transferred + p.bytes }
    else i
  { c with session_infos := c.session_infos.map merge }

/-- The aggregator object `stream_result_future`: plan_id, description, the
coordinator reference, the listener list and the resolution cell of the
future. -/
structure stream_result_future where
  plan_id : Nat
  description : String
  coordinator : stream_coordinator
  event_listeners : List stream_event_handler
  cell : result_cell

/-- The live constructor (src lines 65-73).  It checks
`!coordinator.is_receiving() && !coordinator.has_active_sessions()` but the
`set(getCurrentState())` call in that branch is commented out in the
source, so construction never resolves the cell: both branches leave it
pending. -/
def stream_result_future.construct (pid : Nat) (desc : String) (coord : stream_coordinator) :
    stream_result_future :=
  { plan_id := pid
    description := desc
    coordinator := coord
    event_listeners := []
    cell := result_cell.pending }

/-- `getCurrentState()` (disabled reference body, src lines 138-141):
StreamState(planId, description, coordinator.getAllSessionInfo()). -/
def stream_result_future.get_current_state (f : stream_result_future) : stream_state :=
  { plan_id := f.plan_id
    description := f.description
    sessions := f.coordinator.session_infos }

/-- `add_event_listener` (live code, src lines 129-132): push_back on the
listener vector, no duplicate check. -/
def stream_result_future.add_event_listener (f : stream_result_future)
    (listener : stream_event_handler) : stream_result_future :=
  { f with event_listeners := f.event_listeners ++ [listener] }

/-- The delivery loop of `fireStreamEvent` (disabled reference body, src
lines 188-193): invoke each listener's handler in list order.  Returns the
ids of the listeners whose handler was invoked, in invocation order, and
whether an exception escaped the loop.  The loop has no try/catch: a
throwing handler aborts delivery to the remaining listeners and the
exception propagates to the caller. -/
def fire_loop : List stream_event_handler → stream_event_kind → List Nat × Bool
  | [], _ => ([], false)
  | l :: rest, e =>
      if l.fails e then
        ([l.id], true)
      else
        let r := fire_loop rest e
        (l.id :: r.1, r.2)

/-- `fireStreamEvent(event)` on the aggregator's current listener list. -/
def stream_result_future.fire_stream_event (f : stream_result_future) (e : stream_event_kind) :
    List Nat × Bool :=
  fire_loop f.event_listeners e

/-- `maybeComplete()` (disabled reference body, src lines 195-211): if the
coordinator still has active sessions, no-op; otherwise take the snapshot
`getCurrentState()`, and `setException(StreamException(finalState,
"Stream failed"))` when it has a failed session, else `set(finalState)`. -/
def stream_result_future.maybe_complete (f : stream_result_future) : stream_result_future :=
  if !f.coordinator.active_sessions then
    let final_state := f.get_current_state
    if final_state.has_failed_session then
      { f with cell := f.cell.set_exception final_state "Stream failed" }
    else
      { f with cell := f.cell.set final_state }
  else
    f

/-- Result of one session-lifecycle callback: the aggregator state after
the call, the listener ids that received the fired event (in delivery
order), and whether an exception escaped the callback. -/
structure handler_result where
  future : stream_result_future
  delivered : List Nat
  threw : Bool

/-- `handleSessionPrepared` (disabled reference body, src lines 158-171):
build the SessionPreparedEvent, `coordinator.addSessionInfo(sessionInfo)`,
then `fireStreamEvent(event)`. -/
def stream_result_future.handle_session_prepared (f : stream_result_future)
    (s : stream_session) : handler_result :=
  let e := stream_event_kind.session_prepared f.plan_id s.info
  let f2 := { f with coordinator := f.coordinator.add_session_info s.info }
  let r := f2.fire_stream_event e
  { future := f2, delivered := r.1, threw := r.2 }

/-- `handleSessionComplete` (disabled reference body, src lines 173-180):
`fireStreamEvent(SessionCompleteEvent(session))` first, then
`coordinator.addSessionInfo(session.getSessionInfo())`, then
`maybeComplete()`.  An exception escaping the event fan-out skips the
upsert and the completion check. -/
def stream_result_future.handle_session_complete (f : stream_result_future)
    (s : stream_session) : handler_result :=
  let r := f.fire_stream_event (stream_event_kind.session_complete s.info)
  if r.2 then
    { future := f, delivered := r.1, threw := true }
  else
    let f2 := { f with coordinator := f.coordinator.add_session_info s.info }
    { future := f2.maybe_complete, delivered := r.1, threw := false }

/-- `handleProgress` (disabled reference body, src lines 182-186):
`coordinator.updateProgress(progress)`, then
`fireStreamEvent(ProgressEvent(planId, progress))`.  No completion check. -/
def stream_result_future.handle_progress (f : stream_result_future)
    (p : progress_info) : handler_result :=
  let f2 := { f with coordinator := f.coordinator.update_progress p }
  let r := f2.fire_stream_event (stream_event_kind.progress f.plan_id p)
  { future := f2, delivered := r.1, threw := r.2 }

/-- External actions performed by `init`, in program order: attaching a
listener, calling a session's `init` with the aggregator as callback sink,
and `coordinator.connect_all_stream_sessions()`. -/
inductive init_action where
  | add_listener (id : Nat)
  | session_init (sid : Nat)
  | connect_all
deriving DecidableEq

/-- `init` (live code, src lines 82-95): `create_and_register` the future,
`add_event_listener` for each supplied listener in order, then
`session->init(future)` for every session of
`coordinator.get_all_stream_sessions()`, then
`coordinator.connect_all_stream_sessions()`.  Besides the resulting
aggregator, the trace of external actions is returned in program order. -/
def stream_result_future.init (pid : Nat) (desc : String)
    (listeners : List stream_event_handler) (coord : stream_coordinator) :
    stream_result_future × List init_action :=
  let future := stream_result_future.construct pid desc coord
  let wired := listeners.foldl
    (fun acc l => (acc.1.add_event_listener l, acc.2 ++ [init_action.add_listener l.id]))
    (future, [])
  let started := coord.sessions.foldl
    (fun acc sid => (acc.1, acc.2 ++ [init_action.session_init sid]))
    wired
  (started.1, started.2 ++ [init_action.connect_all])

/-- Modelled from the spec: `StreamManager.instance.getReceivingStream(planId)`
(StreamManager is not under src/): look up the registry by plan id. -/
def get_receiving_stream (reg : List (Nat × stream_result_future)) (pid : Nat) :
    Option stream_result_future :=
  (reg.find? (fun kv => kv.1 == pid)).map (fun kv => kv.2)

/-- Modelled from the spec: `StreamManager.instance.registerReceiving(future)`
(StreamManager is not under src/): register the aggregator under its plan
id. -/
def register_receiving (reg : List (Nat × stream_result_future)) (pid : Nat)
    (f : stream_result_future) : List (Nat × stream_result_future) :=
  reg ++ [(pid, f)]

/-- `init_receiving_side` (disabled reference body, src lines 97-111):
`getReceivingStream(planId)`; when found, reuse it; when absent, construct
a new aggregator for the plan and `registerReceiving` it.  The fresh
aggregator's coordinator is the receiving-side one the disabled 3-argument
constructor would build: receiving, with no sessions yet. -/
def init_receiving_side (reg : List (Nat × stream_result_future))
    (session_index : Nat) (pid : Nat) (desc : String) :
    stream_result_future × List (Nat × stream_result_future) :=
  match get_receiving_stream reg pid with
  | some f => (f, reg)
  | none =>
      let f := stream_result_future.construct pid desc
        { receiving := true, active_sessions := false, sessions := [], session_infos := [] }
      (f, register_receiving reg pid f)

/-- The operations that can act on an aggregator after construction: the
listener registration, the three session-lifecycle callbacks and the
completion check. -/
inductive agg_op where
  | add_listener (l : stream_event_handler)
  | session_prepared (s : stream_session)
  | session_complete (s : stream_session)
  | progress (p : progress_info)
  | check_complete

/-- Apply one operation to the aggregator. -/
def apply_op (f : stream_result_future) : agg_op → stream_result_future
  | agg_op.add_listener l => f.add_event_listener l
  | agg_op.session_prepared s => (f.handle_session_prepared s).future
  | agg_op.session_complete s => (f.handle_session_complete s).future
  | agg_op.progress p => (f.handle_progress p).future
  | agg_op.check_complete => f.maybe_complete

/-- Run a sequence of operations on the aggregator. -/
def run_ops (f : stream_result_future) (ops : List agg_op) : stream_result_future :=
  ops.foldl apply_op f

/-! Concrete instances used by witnesses and counterexamples. -/

/-- A completed session record for peer 1. -/
def info_ok : session_info :=
  { peer := 1, session_index := 0, total_files_to_receive := 0, total_size_to_receive := 0,
    total_files_to_send := 0, total_size_to_send := 0, bytes_transferred := 0,
    state := session_state.completed }

/-- A failed session record for peer 2. -/
def info_bad : session_info :=
  { info_ok with peer := 2, state := session_state.failed }

/-- A coordinator reporting no receiving activity and no active sessions,
with an empty session-info table. -/
def coord_zero : stream_coordinator :=
  { receiving := false, active_sessions := false, sessions := [], session_infos := [] }

/-- A listener whose handling never fails. -/
def handler_calm : stream_event_handler :=
  { id := 2, fails := fun _ => false }

/-- A listener whose handling always fails. -/
def handler_boom : stream_event_handler :=
  { id := 1, fails := fun _ => true }

/-- Another listener whose handling never fails. -/
def handler_third : stream_event_handler :=
  { id := 3, fails := fun _ => false }

/-- A listener with id 7 whose handling never fails. -/
def handler_seven : stream_event_handler :=
  { id := 7, fails := fun _ => false }

/-! Helper lemmas. -/

/-- `set` is a no-op on a resolved cell. -/
theorem result_cell.set_of_resolved (c : result_cell) (s : stream_state)
    (h : c ≠ result_cell.pending) : c.set s = c := by
  cases c with
  | pending => exact absurd rfl h
  | succeeded s0 => rfl
  | failed s0 m => rfl

/-- `setException` is a no-op on a resolved cell. -/
theorem result_cell.set_exception_of_resolved (c : result_cell) (s : stream_state)
    (m : String) (h : c ≠ result_cell.pending) : c.set_exception s m = c := by
  cases c with
  | pending => exact absurd rfl h
  | succeeded s0 => rfl
  | failed s0 m0 => rfl

/-- `maybeComplete` leaves a resolved aggregator completely unchanged. -/
theorem maybe_complete_of_resolved (f : stream_result_future)
    (h : f.cell ≠ result_cell.pending) : f.maybe_complete = f := by
  have hset : ∀ s, f.cell.set s = f.cell :=
    fun s => result_cell.set_of_resolved f.cell s h
  have hsete : ∀ s m, f.cell.set_exception s m = f.cell :=
    fun s m => result_cell.set_exception_of_resolved f.cell s m h
  unfold stream_result_future.maybe_complete
  simp only [hset, hsete]
  split
  · split <;> rfl
  · rfl

/-- `maybeComplete` never changes the plan id. -/
theorem maybe_complete_plan_id (f : stream_result_future) :
    f.maybe_complete.plan_id = f.plan_id := by
  unfold stream_result_future.maybe_complete
  by_cases hA : (!f.coordinator.active_sessions) = true
  · simp only [hA, if_pos]
    by_cases hF : f.get_current_state.has_failed_session = true
    · simp [hF]
    · simp [hF]
  · simp [hA]

/-- A snapshot has a failed session iff some record is in state failed. -/
theorem has_failed_session_iff (s : stream_state) :
    s.has_failed_session = true ↔ ∃ i ∈ s.sessions, i.state = session_state.failed := by
  simp [stream_state.has_failed_session, List.any_eq_true]

/-- A snapshot has no failed session iff every record is in a state other
than failed. -/
theorem has_failed_session_eq_false (s : stream_state) :
    s.has_failed_session = false ↔ ∀ i ∈ s.sessions, i.state ≠ session_state.failed := by
  rw [← Bool.not_eq_true, has_failed_session_iff]
  simp

/-! Claim theorems. -/

/-- C2: the spec claims the zero-session construction resolves immediately
to success with an empty snapshot, and the source's own comment at the
check says "we immediately set result for returning" — but the
`set(getCurrentState())` call is commented out, so the constructor leaves
the cell pending even when the coordinator reports neither receiving
activity nor active sessions. -/
theorem zero_session_construction_stays_pending :
    coord_zero.receiving = false ∧ coord_zero.active_sessions = false ∧
    (stream_result_future.construct 7 "plan" coord_zero).cell = result_cell.pending ∧
    (stream_result_future.construct 7 "plan" coord_zero).cell ≠
      result_cell.succeeded (stream_result_future.construct 7 "plan" coord_zero).get_current_state := by
  refine ⟨rfl, rfl, rfl, ?_⟩
  intro h
  exact result_cell.noConfusion h

/-- C3: resolution is idempotent — once the cell is resolved, any number of
further `maybeComplete` invocations leaves the whole aggregator state
(resolved value, listener list, coordinator view) unchanged, and fires no
events (the check fires none at all). -/
theorem maybe_complete_idempotent_after_resolution (f : stream_result_future)
    (h : f.cell ≠ result_cell.pending) :
    ∀ n : Nat, Nat.iterate stream_result_future.maybe_complete n f = f := by
  intro n
  induction n with
  | zero => rfl
  | succ k ih =>
      have h1 : stream_result_future.maybe_complete f = f := maybe_complete_of_resolved f h
      calc Nat.iterate stream_result_future.maybe_complete (k + 1) f
          = Nat.iterate stream_result_future.maybe_complete k
              (stream_result_future.maybe_complete f) := rfl
        _ = Nat.iterate stream_result_future.maybe_complete k f := by rw [h1]
        _ = f := ih

/-- A resolved aggregator used to exercise the idempotence theorem. -/
def f_resolved : stream_result_future :=
  { plan_id := 11, description := "done", coordinator := coord_zero,
    event_listeners := [],
    cell := result_cell.succeeded { plan_id := 11, description := "done", sessions := [] } }

/-- Witness for C3 at a concrete resolved aggregator and three repeats. -/
theorem maybe_complete_idempotent_after_resolution_witness :
    Nat.iterate stream_result_future.maybe_complete 3 f_resolved = f_resolved :=
  maybe_complete_idempotent_after_resolution f_resolved (by decide) 3

/-- C4: a progress callback never writes the resolution cell and never runs
the completion check — for every aggregator state (including states where
the check would resolve) and every reported progress, `handleProgress`
leaves the cell and the listener list unchanged; among the other
operations, only `handleSessionComplete` reaches `maybeComplete`
(`handleSessionPrepared` and `add_event_listener` also leave the cell
untouched). -/
theorem progress_never_resolves :
    ∀ (f : stream_result_future) (p : progress_info) (s : stream_session)
      (l : stream_event_handler),
    (f.handle_progress p).future.cell = f.cell ∧
    (f.handle_progress p).future.event_listeners = f.event_listeners ∧
    (f.handle_progress p).future.plan_id = f.plan_id ∧
    (f.handle_session_prepared s).future.cell = f.cell ∧
    (f.add_event_listener l).cell = f.cell := by
  intro f p s l
  exact ⟨rfl, rfl, rfl, rfl, rfl⟩

/-- Each single operation preserves the plan id. -/
theorem apply_op_plan_id (f : stream_result_future) (o : agg_op) :
    (apply_op f o).plan_id = f.plan_id := by
  cases o with
  | add_listener l => rfl
  | session_prepared s => rfl
  | session_complete s =>
      show (f.handle_session_complete s).future.plan_id = f.plan_id
      unfold stream_result_future.handle_session_complete
      by_cases hr : (f.fire_stream_event (stream_event_kind.session_complete s.info)).2 = true
      · simp [hr]
      · simp only [Bool.not_eq_true] at hr
        simp only [hr, Bool.false_eq_true, if_false]
        exact maybe_complete_plan_id _
  | progress p => rfl
  | check_complete => exact maybe_complete_plan_id f

/-- Any operation sequence preserves the plan id. -/
theorem run_ops_plan_id (ops : List agg_op) :
    ∀ f : stream_result_future, (run_ops f ops).plan_id = f.plan_id := by
  induction ops with
  | nil => intro f; rfl
  | cons o rest ih =>
      intro f
      show (run_ops (apply_op f o) rest).plan_id = f.plan_id
      rw [ih (apply_op f o), apply_op_plan_id]

/-- C9: the plan id is immutable — after constructing an aggregator with a
given plan id, every sequence of listener registrations, session-lifecycle
callbacks and completion checks leaves `plan_id` equal to the constructor
argument. -/
theorem plan_id_never_changes :
    ∀ (ops : List agg_op) (pid : Nat) (desc : String) (coord : stream_coordinator),
    (run_ops (stream_result_future.construct pid desc coord) ops).plan_id = pid := by
  intro ops pid desc coord
  rw [run_ops_plan_id ops]
  rfl

/-- A pending aggregator whose coordinator reports no active sessions and
whose snapshot holds one completed and one failed session. -/
def f_one_failed : stream_result_future :=
  { plan_id := 9, description := "mixed", event_listeners := [],
    coordinator :=
      { receiving := false, active_sessions := false, sessions := [1, 2],
        session_infos := [info_ok, info_bad] },
    cell := result_cell.pending }

/-- C1 counterexample: at an aggregator with a failed session, the check
resolves the cell with message "Stream failed" (capital S, as written in
the source), not the message "stream failed" stated by the claim. -/
theorem maybe_complete_message_counterexample :
    f_one_failed.coordinator.active_sessions = false ∧
    f_one_failed.cell = result_cell.pending ∧
    f_one_failed.get_current_state.has_failed_session = true ∧
    f_one_failed.maybe_complete.cell =
      result_cell.failed f_one_failed.get_current_state "Stream failed" ∧
    f_one_failed.maybe_complete.cell ≠
      result_cell.failed f_one_failed.get_current_state "stream failed" := by
  refine ⟨rfl, rfl, rfl, rfl, ?_⟩
  decide

/-- C1 (amended): when the check runs on a pending aggregator whose
coordinator reports no active sessions, it takes the `getCurrentState`
snapshot and resolves to FAILED(snapshot, "Stream failed") when the
snapshot's failed-session predicate holds, and to SUCCEEDED(snapshot)
otherwise; the outcome is success exactly when no record of the final
snapshot is in state failed. -/
theorem maybe_complete_resolves_final_state (f : stream_result_future)
    (hA : f.coordinator.active_sessions = false)
    (hP : f.cell = result_cell.pending) :
    (f.maybe_complete.cell =
      if f.get_current_state.has_failed_session then
        result_cell.failed f.get_current_state "Stream failed"
      else
        result_cell.succeeded f.get_current_state) ∧
    (f.maybe_complete.cell = result_cell.succeeded f.get_current_state ↔
      ∀ i ∈ f.get_current_state.sessions, i.state ≠ session_state.failed) := by
  have hmc : f.maybe_complete.cell =
      if f.get_current_state.has_failed_session then
        result_cell.failed f.get_current_state "Stream failed"
      else
        result_cell.succeeded f.get_current_state := by
    unfold stream_result_future.maybe_complete
    simp only [hA, Bool.not_false, if_true, hP]
    split
    · rfl
    · rfl
  refine ⟨hmc, ?_⟩
  rw [hmc]
  by_cases hF : f.get_current_state.has_failed_session = true
  · simp only [hF, if_true]
    constructor
    · intro hcontra
      exact result_cell.noConfusion hcontra
    · intro hall
      obtain ⟨i, hi, hstate⟩ := (has_failed_session_iff f.get_current_state).mp hF
      exact absurd hstate (hall i hi)
  · simp only [Bool.not_eq_true] at hF
    simp only [hF, Bool.false_eq_true, if_false, true_iff]
    exact (has_failed_session_eq_false f.get_current_state).mp hF

/-- A pending aggregator whose coordinator reports no active sessions and
whose snapshot holds only a completed session. -/
def f_all_ok : stream_result_future :=
  { plan_id := 8, description := "ok", event_listeners := [],
    coordinator :=
      { receiving := false, active_sessions := false, sessions := [1],
        session_infos := [info_ok] },
    cell := result_cell.pending }

/-- Witness for the amended C1 at a concrete all-completed aggregator. -/
theorem maybe_complete_resolves_final_state_witness :
    f_all_ok.maybe_complete.cell = result_cell.succeeded f_all_ok.get_current_state :=
  (maybe_complete_resolves_final_state f_all_ok rfl rfl).2.mpr (by decide)

/-- Folding listener attachment with a trace appends the add actions in
listener order. -/
theorem foldl_add_listener_trace (ls : List stream_event_handler) :
    ∀ (f : stream_result_future) (tr : List init_action),
    List.foldl
      (fun acc l => (acc.1.add_event_listener l, acc.2 ++ [init_action.add_listener l.id]))
      (f, tr) ls =
    (List.foldl stream_result_future.add_event_listener f ls,
      tr ++ ls.map (fun l => init_action.add_listener l.id)) := by
  induction ls with
  | nil => intro f tr; simp
  | cons x xs ih =>
      intro f tr
      simp only [List.foldl_cons, List.map_cons, ih]
      simp

/-- Folding session starts with a trace appends the session-init actions in
enumeration order and leaves the aggregator untouched. -/
theorem foldl_session_trace (sids : List Nat) :
    ∀ p : stream_result_future × List init_action,
    List.foldl (fun acc sid => (acc.1, acc.2 ++ [init_action.session_init sid])) p sids =
    (p.1, p.2 ++ sids.map init_action.session_init) := by
  induction sids with
  | nil => intro p; simp
  | cons x xs ih =>
      intro p
      simp only [List.foldl_cons, List.map_cons, ih]
      simp

/-- Folding `add_event_listener` appends the listeners in order. -/
theorem foldl_add_listener_listeners (ls : List stream_event_handler) :
    ∀ f : stream_result_future,
    (List.foldl stream_result_future.add_event_listener f ls).event_listeners =
      f.event_listeners ++ ls := by
  induction ls with
  | nil => intro f; simp
  | cons x xs ih =>
      intro f
      simp only [List.foldl_cons, ih, stream_result_future.add_event_listener]
      simp

/-- C5: `init` attaches every supplied listener (in order) to the freshly
constructed aggregator, and its external-action trace is exactly: all
listener attachments in supplied order, then a session `init` for every
session the coordinator enumerates, then — only after every session is
wired — the instruction to connect all stream sessions. -/
theorem init_wiring_order :
    ∀ (pid : Nat) (desc : String) (listeners : List stream_event_handler)
      (coord : stream_coordinator),
    (stream_result_future.init pid desc listeners coord).1.event_listeners = listeners ∧
    (stream_result_future.init pid desc listeners coord).2 =
      listeners.map (fun l => init_action.add_listener l.id) ++
        coord.sessions.map init_action.session_init ++ [init_action.connect_all] := by
  intro pid desc listeners coord
  unfold stream_result_future.init
  simp only [foldl_add_listener_trace, foldl_session_trace]
  constructor
  · simp [foldl_add_listener_listeners, stream_result_future.construct]
  · simp [List.append_assoc]

/-- When no listener's handling fails on the event, the delivery loop
invokes every listener exactly once, in list order, and no exception
escapes. -/
theorem fire_loop_no_fail (e : stream_event_kind) :
    ∀ ls : List stream_event_handler, (∀ l ∈ ls, l.fails e = false) →
    fire_loop ls e = (ls.map stream_event_handler.id, false) := by
  intro ls
  induction ls with
  | nil => intro h; rfl
  | cons x xs ih =>
      intro h
      have hx : x.fails e = false := h x (List.mem_cons_self x xs)
      have hxs : ∀ l ∈ xs, l.fails e = false := fun l hl => h l (List.mem_cons_of_mem x hl)
      simp [fire_loop, hx, ih hxs]

/-- C6: when every currently registered listener handles the event without
failing, `fireStreamEvent` delivers the event synchronously to each of
them exactly once, in listener-registration order (the delivery log is the
id list of the listener vector, in order). -/
theorem fire_event_order (f : stream_result_future) (e : stream_event_kind)
    (h : ∀ l ∈ f.event_listeners, l.fails e = false) :
    f.fire_stream_event e = (f.event_listeners.map stream_event_handler.id, false) :=
  fire_loop_no_fail e f.event_listeners h

/-- An aggregator with two registered listeners, in order ids 7 then 2. -/
def f_two_listeners : stream_result_future :=
  { plan_id := 3, description := "w", coordinator := coord_zero,
    event_listeners := [handler_seven, handler_calm], cell := result_cell.pending }

/-- A concrete progress event. -/
def ev_progress : stream_event_kind :=
  stream_event_kind.progress 3 { peer := 1, session_index := 0, file_name := "f", bytes := 10 }

/-- Witness for C6 at a concrete two-listener aggregator. -/
theorem fire_event_order_witness :
    f_two_listeners.fire_stream_event ev_progress = ([7, 2], false) := by
  have h : ∀ l ∈ f_two_listeners.event_listeners, l.fails ev_progress = false := by
    intro l hl
    simp only [f_two_listeners, List.mem_cons, List.not_mem_nil, or_false] at hl
    rcases hl with rfl | rfl
    · rfl
    · rfl
  exact fire_event_order f_two_listeners ev_progress h

/-- A pending aggregator whose registry holds a listener that always fails
(id 1) followed by one that never fails (id 3). -/
def f_drop : stream_result_future :=
  { plan_id := 12, description := "drop", coordinator := coord_zero,
    event_listeners := [handler_boom, handler_third], cell := result_cell.pending }

/-- C6 counterexample: delivery is not unconditional.  With listeners of
ids 1 (failing) and 3 (never failing) registered at delivery time, firing
an event invokes only listener 1 and the exception escapes — listener 3,
although registered, never receives the event, so the delivery log is not
the registered-id list. -/
theorem fire_event_dropped_listener_counterexample :
    f_drop.event_listeners.map stream_event_handler.id = [1, 3] ∧
    f_drop.fire_stream_event ev_progress = ([1], true) ∧
    f_drop.fire_stream_event ev_progress ≠
      (f_drop.event_listeners.map stream_event_handler.id, false) := by
  refine ⟨rfl, rfl, ?_⟩
  decide

/-- When the first failing listener is reached, the delivery loop stops:
the listeners before it and the failing one itself are invoked, the ones
after it are not, and the exception escapes. -/
theorem fire_loop_first_fail (e : stream_event_kind) :
    ∀ (pre : List stream_event_handler) (l : stream_event_handler)
      (post : List stream_event_handler),
    (∀ x ∈ pre, x.fails e = false) → l.fails e = true →
    fire_loop (pre ++ l :: post) e = (pre.map stream_event_handler.id ++ [l.id], true) := by
  intro pre
  induction pre with
  | nil =>
      intro l post h hl
      simp [fire_loop, hl]
  | cons x xs ih =>
      intro l post h hl
      have hx : x.fails e = false := h x (List.mem_cons_self x xs)
      have hxs : ∀ y ∈ xs, y.fails e = false := fun y hy => h y (List.mem_cons_of_mem x hy)
      simp [fire_loop, hx, ih l post hxs hl]

/-- A session whose final record is completed. -/
def sess_done : stream_session := { info := info_ok }

/-- The session-complete event for `sess_done`. -/
def e_complete : stream_event_kind := stream_event_kind.session_complete sess_done.info

/-- A pending aggregator whose first listener always fails, followed by one
that never fails; its last session is about to complete. -/
def f_boom : stream_result_future :=
  { plan_id := 4, description := "c",
    coordinator :=
      { receiving := false, active_sessions := false, sessions := [1], session_infos := [] },
    event_listeners := [handler_boom, handler_calm], cell := result_cell.pending }

/-- C7 counterexample: a failing listener is not isolated.  On the final
session-complete callback the first listener's failure aborts delivery
(the second listener never receives the event), the exception escapes the
callback, the final SessionInfo is never upserted and the completion check
never runs — the aggregator stays pending, although the check would have
resolved it had the upsert happened. -/
theorem listener_failure_counterexample :
    (f_boom.handle_session_complete sess_done).threw = true ∧
    (f_boom.handle_session_complete sess_done).delivered = [1] ∧
    (f_boom.handle_session_complete sess_done).future.cell = result_cell.pending ∧
    (f_boom.handle_session_complete sess_done).future.coordinator.session_infos = [] ∧
    ({ f_boom with
        coordinator := f_boom.coordinator.add_session_info sess_done.info }.maybe_complete).cell ≠
      result_cell.pending := by
  refine ⟨rfl, rfl, rfl, rfl, ?_⟩
  decide

/-- C7 (amended): a listener whose handling fails is not isolated — the
failure propagates out of the fan-out, the listeners registered after the
first failing one do not receive the event, and when the failing delivery
happens inside `handleSessionComplete` the SessionInfo upsert and the
completion check are skipped, leaving the aggregator exactly as it was
before the callback. -/
theorem listener_failure_not_isolated (pre post : List stream_event_handler)
    (l : stream_event_handler) (e : stream_event_kind)
    (hpre : ∀ x ∈ pre, x.fails e = false) (hl : l.fails e = true) :
    fire_loop (pre ++ l :: post) e = (pre.map stream_event_handler.id ++ [l.id], true) ∧
    (∀ (f : stream_result_future) (s : stream_session),
      f.event_listeners = pre ++ l :: post →
      e = stream_event_kind.session_complete s.info →
      (f.handle_session_complete s).future = f ∧
      (f.handle_session_complete s).threw = true ∧
      (f.handle_session_complete s).delivered = pre.map stream_event_handler.id ++ [l.id]) := by
  have h1 : fire_loop (pre ++ l :: post) e =
      (pre.map stream_event_handler.id ++ [l.id], true) :=
    fire_loop_first_fail e pre l post hpre hl
  refine ⟨h1, ?_⟩
  intro f s hf he
  have hr : f.fire_stream_event (stream_event_kind.session_complete s.info) =
      (pre.map stream_event_handler.id ++ [l.id], true) := by
    rw [stream_result_future.fire_stream_event, hf, ← he]
    exact h1
  simp [stream_result_future.handle_session_complete, hr]

/-- A pending aggregator whose listeners are: one that never fails, then
one that always fails, then another that never fails. -/
def f_mixed : stream_result_future :=
  { plan_id := 5, description := "mix",
    coordinator :=
      { receiving := false, active_sessions := false, sessions := [1], session_infos := [] },
    event_listeners := [handler_calm, handler_boom, handler_third],
    cell := result_cell.pending }

/-- Witness for the amended C7 at a concrete three-listener aggregator. -/
theorem listener_failure_not_isolated_witness :
    (f_mixed.handle_session_complete sess_done).future = f_mixed ∧
    (f_mixed.handle_session_complete sess_done).threw = true ∧
    (f_mixed.handle_session_complete sess_done).delivered = [2, 1] := by
  have h := listener_failure_not_isolated [handler_calm] [handler_third] handler_boom e_complete
    (by intro x hx; rw [List.mem_singleton] at hx; subst hx; rfl) rfl
  have h2 := h.2 f_mixed sess_done rfl rfl
  exact ⟨h2.1, h2.2.1, h2.2.2⟩

/-- Appending a fresh entry to a registry with no entry for the key makes
lookup of that key find the fresh entry. -/
theorem find_append_single (pid : Nat) (f : stream_result_future) :
    ∀ reg : List (Nat × stream_result_future),
    reg.find? (fun kv => kv.1 == pid) = none →
    (reg ++ [(pid, f)]).find? (fun kv => kv.1 == pid) = some (pid, f) := by
  intro reg
  induction reg with
  | nil =>
      intro h
      simp [List.find?]
  | cons x xs ih =>
      intro h
      cases hx : (x.1 == pid) with
      | true => simp [List.find?, hx] at h
      | false =>
          rw [List.cons_append]
          simp only [List.find?, hx] at h ⊢
          exact ih h

/-- C8: the receiving side is find-or-create.  When the plan registry
already holds an aggregator for the plan id, `init_receiving_side` returns
it and leaves the registry unchanged; when it holds none, a new pending
aggregator carrying that plan id is constructed, registered under the plan
id, and subsequently found by lookup. -/
theorem init_receiving_side_find_or_create (reg : List (Nat × stream_result_future))
    (si pid : Nat) (desc : String) :
    (∀ f, get_receiving_stream reg pid = some f →
      init_receiving_side reg si pid desc = (f, reg)) ∧
    (get_receiving_stream reg pid = none →
      (init_receiving_side reg si pid desc).2 =
        register_receiving reg pid (init_receiving_side reg si pid desc).1 ∧
      (init_receiving_side reg si pid desc).1.plan_id = pid ∧
      (init_receiving_side reg si pid desc).1.cell = result_cell.pending ∧
      get_receiving_stream (init_receiving_side reg si pid desc).2 pid =
        some (init_receiving_side reg si pid desc).1) := by
  constructor
  · intro f h
    simp [init_receiving_side, h]
  · intro h
    have hf : reg.find? (fun kv => kv.1 == pid) = none := by
      unfold get_receiving_stream at h
      cases hq : reg.find? (fun kv => kv.1 == pid) with
      | none => rfl
      | some kv => rw [hq] at h; exact Option.noConfusion h
    have hstep : init_receiving_side reg si pid desc =
        (stream_result_future.construct pid desc
          { receiving := true, active_sessions := false, sessions := [], session_infos := [] },
          register_receiving reg pid
            (stream_result_future.construct pid desc
              { receiving := true, active_sessions := false, sessions := [],
                session_infos := [] })) := by
      unfold init_receiving_side
      rw [h]
    rw [hstep]
    refine ⟨rfl, rfl, rfl, ?_⟩
    show get_receiving_stream
      (register_receiving reg pid
        (stream_result_future.construct pid desc
          { receiving := true, active_sessions := false, sessions := [],
            session_infos := [] })) pid = _
    unfold get_receiving_stream register_receiving
    rw [find_append_single pid _ reg hf]
    rfl

/-- A registered receiving-side aggregator for plan 5. -/
def f_reg : stream_result_future :=
  stream_result_future.construct 5 "rcv"
    { receiving := true, active_sessions := false, sessions := [], session_infos := [] }

/-- A one-entry registry holding `f_reg` under plan id 5. -/
def reg_one : List (Nat × stream_result_future) := [(5, f_reg)]

/-- Witness for C8: the found branch reuses the registered aggregator and
keeps the registry; the not-found branch registers the fresh one. -/
theorem init_receiving_side_find_or_create_witness :
    init_receiving_side reg_one 0 5 "d" = (f_reg, reg_one) ∧
    (init_receiving_side [] 0 5 "d").2 =
      register_receiving [] 5 (init_receiving_side [] 0 5 "d").1 := by
  constructor
  · exact (init_receiving_side_find_or_create reg_one 0 5 "d").1 f_reg rfl
  · exact ((init_receiving_side_find_or_create [] 0 5 "d").2 rfl).1

/-- C10: `add_event_listener` does no duplicate check — each call appends,
so registering the same listener twice leaves it twice in the list (the
list grows by exactly one entry per call and earlier entries keep their
order), and a subsequent event is then delivered to that listener twice. -/
theorem add_event_listener_no_dedup (f : stream_result_future)
    (l : stream_event_handler) (e : stream_event_kind)
    (h : ∀ x ∈ f.event_listeners, x.fails e = false) (hl : l.fails e = false) :
    (f.add_event_listener l).event_listeners = f.event_listeners ++ [l] ∧
    ((f.add_event_listener l).add_event_listener l).event_listeners =
      f.event_listeners ++ [l, l] ∧
    (f.add_event_listener l).event_listeners.length = f.event_listeners.length + 1 ∧
    (((f.add_event_listener l).add_event_listener l).fire_stream_event e).1 =
      (f.fire_stream_event e).1 ++ [l.id, l.id] := by
  refine ⟨rfl, ?_, ?_, ?_⟩
  · show ((f.event_listeners ++ [l]) ++ [l] : List stream_event_handler) =
      f.event_listeners ++ [l, l]
    simp
  · show (f.event_listeners ++ [l]).length = f.event_listeners.length + 1
    simp
  · have hboth : ∀ x ∈ (f.event_listeners ++ [l]) ++ [l], x.fails e = false := by
      intro x hx
      rcases List.mem_append.mp hx with hx1 | hx2
      · rcases List.mem_append.mp hx1 with hx3 | hx4
        · exact h x hx3
        · rw [List.mem_singleton] at hx4; subst hx4; exact hl
      · rw [List.mem_singleton] at hx2; subst hx2; exact hl
    have h2 := fire_loop_no_fail e ((f.event_listeners ++ [l]) ++ [l]) hboth
    have h3 := fire_loop_no_fail e f.event_listeners h
    show (fire_loop ((f.event_listeners ++ [l]) ++ [l]) e).1 =
      (fire_loop f.event_listeners e).1 ++ [l.id, l.id]
    rw [h2, h3]
    simp

/-- A pending aggregator with one registered listener of id 7. -/
def f_base : stream_result_future :=
  { plan_id := 6, description := "b", coordinator := coord_zero,
    event_listeners := [handler_seven], cell := result_cell.pending }

/-- Witness for C10: registering the never-failing listener of id 2 twice
on `f_base` stores it twice, and a fired event is delivered to it twice. -/
theorem add_event_listener_no_dedup_witness :
    ((f_base.add_event_listener handler_calm).add_event_listener handler_calm).event_listeners =
      f_base.event_listeners ++ [handler_calm, handler_calm] ∧
    (((f_base.add_event_listener handler_calm).add_event_listener
        handler_calm).fire_stream_event ev_progress).1 = [7, 2, 2] := by
  have h := add_event_listener_no_dedup f_base handler_calm ev_progress
    (by intro x hx; simp only [f_base, List.mem_singleton] at hx; subst hx; rfl) rfl
  refine ⟨h.2.1, ?_⟩
  rw [h.2.2.2]
  rfl

end streaming
